import Mathlib

/-!
Verification of the gin-trading-bot decision core against its specification.

The Python sources are embedded shallowly over `ℚ` (the exact-arithmetic
idealization of the float computations; every numeric step of the embedded
code is a field operation, so the rational model mirrors the source
expression for expression).  Pandas series become `List ℚ`, dictionaries
become association lists, and the in-place mutations of the position store
become explicit state passing.
-/

namespace GinBot

/-! Embedding of `src/src/indicators/technical_indicators.py`. -/

/-- Successive differences `prices.diff()` with the leading NaN dropped:
entry `i` is `close (i+1) - close i`. -/
def diffs (closes : List ℚ) : List ℚ :=
  List.zipWith (fun a b => a - b) closes.tail closes

/-- Per-bar gains, `delta.where(delta > 0, 0)`.  The first delta of the
source series is NaN and `where` replaces it by 0 (NaN compares false), so
the first entry is 0. -/
def gains (closes : List ℚ) : List ℚ :=
  match closes with
  | [] => []
  | _ :: _ => 0 :: (diffs closes).map (fun d => if d > 0 then d else 0)

/-- Per-bar losses, `-delta.where(delta < 0, 0)`; again the leading NaN
delta becomes 0. -/
def losses (closes : List ℚ) : List ℚ :=
  match closes with
  | [] => []
  | _ :: _ => 0 :: (diffs closes).map (fun d => if d < 0 then -d else 0)

/-- Entry `i` of `xs.rolling(window=period, min_periods=1).mean()`: the mean
of the last `min (i+1) period` entries ending at `i`. -/
def rollingMean1 (period : Nat) (xs : List ℚ) : List ℚ :=
  (List.range xs.length).map (fun i =>
    let k := min (i + 1) period
    (((xs.take (i + 1)).drop (i + 1 - k)).sum) / (k : ℚ))

/-- The `1e-10` guard added to the average losses before dividing. -/
def rsiEps : ℚ := 1 / 10 ^ 10

/-- Embeds `TechnicalIndicators.calculate_rsi`.  In exact rational
arithmetic every entry of `100 - 100/(1 + rs)` is defined
(`avg_losses + ε > 0` and `1 + rs > 0`), so the trailing `fillna(50)` of
the source never fires for NaN-free price input and has no counterpart
here. -/
def calculate_rsi (closes : List ℚ) (period : Nat) : List ℚ :=
  List.zipWith (fun g l => 100 - 100 / (1 + g / (l + rsiEps)))
    (rollingMean1 period (gains closes)) (rollingMean1 period (losses closes))

/-- Embeds `TechnicalIndicators.calculate_price_distance_from_bb_lower`. -/
def calculate_price_distance_from_bb_lower (price lower_band : ℚ) : ℚ :=
  if lower_band = 0 then 0
  else ((lower_band - price) / lower_band) * 100

/-- Embeds `TechnicalIndicators.is_long_signal`. -/
def is_long_signal (rsi price lower_band rsi_threshold distance_threshold : ℚ) : Bool :=
  let rsi_condition := decide (rsi < rsi_threshold)
  let distance := calculate_price_distance_from_bb_lower price lower_band
  let distance_condition := decide (distance ≥ distance_threshold)
  rsi_condition && distance_condition

/-! Embedding of `src/src/strategy/trading_strategy.py`.  The strategy
configuration is the parsed JSON mapping `pairs: symbol -> SymbolConfig`;
every numeric field is read through `.get` with the source defaults. -/

inductive Side
  | LONG
  | SHORT
deriving DecidableEq

structure SymbolConfig where
  enabled : Bool := false
  leverage : Option ℚ := none
  trade_volume : Option ℚ := none
  rsi_long_threshold : Option ℚ := none
  shadow_distance_threshold : Option ℚ := none
  take_profit_percent : Option ℚ := none
  stop_loss_percent : Option ℚ := none
deriving DecidableEq

structure Config where
  pairs : List (String × SymbolConfig) := []
deriving DecidableEq

/-- Python dict lookup for string-keyed association lists. -/
def dictGet {α : Type} (k : String) : List (String × α) → Option α
  | [] => none
  | (k', v) :: rest => if k' = k then some v else dictGet k rest

/-- Python dict assignment `d[k] = v`: replace an existing binding in
place, otherwise append (dict insertion order). -/
def dictInsert {α : Type} (k : String) (v : α) : List (String × α) → List (String × α)
  | [] => [(k, v)]
  | (k', v') :: rest => if k' = k then (k, v) :: rest else (k', v') :: dictInsert k v rest

/-- Resolves `self.config.get('pairs', {}).get(symbol, {})`; `none` stands
for the empty dict a missing symbol yields. -/
def Config.symbolConfig (cfg : Config) (symbol : String) : Option SymbolConfig :=
  dictGet symbol cfg.pairs

/-- Resolves `symbol_config.get('enabled', False)` for a possibly missing
symbol config. -/
def getEnabled (sc : Option SymbolConfig) : Bool :=
  (sc.map SymbolConfig.enabled).getD false

def getTakeProfitPercent (sc : Option SymbolConfig) : ℚ :=
  (sc.bind SymbolConfig.take_profit_percent).getD 2

def getStopLossPercent (sc : Option SymbolConfig) : ℚ :=
  (sc.bind SymbolConfig.stop_loss_percent).getD 1

def getTradeVolume (sc : Option SymbolConfig) : ℚ :=
  (sc.bind SymbolConfig.trade_volume).getD 20

def getLeverage (sc : Option SymbolConfig) : ℚ :=
  (sc.bind SymbolConfig.leverage).getD 10

def getRsiLongThreshold (sc : Option SymbolConfig) : ℚ :=
  (sc.bind SymbolConfig.rsi_long_threshold).getD 30

def getShadowDistanceThreshold (sc : Option SymbolConfig) : ℚ :=
  (sc.bind SymbolConfig.shadow_distance_threshold).getD (3 / 2)

/-- Embeds `TradingStrategy.calculate_take_profit_stop_loss`. -/
def calculate_take_profit_stop_loss (cfg : Config) (symbol : String)
    (entry_price : ℚ) (side : Side) : ℚ × ℚ :=
  let sc := cfg.symbolConfig symbol
  let tp_percent := getTakeProfitPercent sc / 100
  let sl_percent := getStopLossPercent sc / 100
  match side with
  | .LONG => (entry_price * (1 + tp_percent), entry_price * (1 - sl_percent))
  | .SHORT => (entry_price * (1 - tp_percent), entry_price * (1 + sl_percent))

/-- Embeds `TradingStrategy.calculate_position_size`. -/
def calculate_position_size (cfg : Config) (symbol : String) (current_price : ℚ) : ℚ :=
  getTradeVolume (cfg.symbolConfig symbol) / current_price

inductive ExitTrigger
  | takeProfit
  | stopLoss
deriving DecidableEq

/-- Results of `should_close_position`; the source renders these as the
strings 'Take Profit', 'Stop Loss', 'No entry price available' and
'No exit signal'. -/
inductive CloseReason
  | trigger (t : ExitTrigger)
  | noEntryPrice
  | noExitSignal
deriving DecidableEq

/-- The fields of the position dict read by `should_close_position`
(`entry_price` with default 0, `side` with default LONG). -/
structure PositionData where
  entry_price : ℚ
  side : Side
deriving DecidableEq

/-- Embeds `TradingStrategy.should_close_position`: recomputes the levels
from entry price and current config, checks take profit before stop loss,
with inclusive comparisons. -/
def should_close_position (cfg : Config) (symbol : String)
    (position_data : PositionData) (current_price : ℚ) : Bool × CloseReason :=
  let entry_price := position_data.entry_price
  if entry_price = 0 then (false, .noEntryPrice)
  else
    let levels := calculate_take_profit_stop_loss cfg symbol entry_price position_data.side
    match position_data.side with
    | .LONG =>
      if current_price ≥ levels.1 then (true, .trigger .takeProfit)
      else if current_price ≤ levels.2 then (true, .trigger .stopLoss)
      else (false, .noExitSignal)
    | .SHORT =>
      if current_price ≤ levels.1 then (true, .trigger .takeProfit)
      else if current_price ≥ levels.2 then (true, .trigger .stopLoss)
      else (false, .noExitSignal)

/-! Embedding of `src/src/position_manager.py`.  The JSON-file persistence
is replaced by the in-memory dict it mirrors; `datetime.now()` values are
threaded in as the `now` argument (used for the position id and the entry
and exit times; the two source formattings of the same instant are
collapsed into one opaque string). -/

inductive PStatus
  | OPEN
  | CLOSED
deriving DecidableEq

structure PMPosition where
  id : String
  symbol : String
  side : Side
  quantity : ℚ
  entry_price : ℚ
  leverage : ℚ
  take_profit : ℚ
  stop_loss : ℚ
  rsi_at_entry : ℚ
  entry_time : String
  status : PStatus
  exit_price : Option ℚ
  exit_time : Option String
  pnl : ℚ
  pnl_percent : ℚ
  exit_reason : Option String
deriving DecidableEq

structure PMState where
  positions : List (String × PMPosition) := []
deriving DecidableEq

/-- The `position_data` dict literal built inside
`PositionManager.add_position`. -/
def position_record (position_id symbol : String) (side : Side)
    (quantity entry_price leverage take_profit stop_loss rsi_at_entry : ℚ)
    (now : String) : PMPosition :=
  { id := position_id, symbol := symbol, side := side, quantity := quantity,
    entry_price := entry_price, leverage := leverage, take_profit := take_profit,
    stop_loss := stop_loss, rsi_at_entry := rsi_at_entry, entry_time := now,
    status := .OPEN, exit_price := none, exit_time := none, pnl := 0,
    pnl_percent := 0, exit_reason := none }

/-- Embeds `PositionManager.add_position`: builds the id from symbol and
timestamp, stores the OPEN record, returns the id.  The source performs no
duplicate-open check and has no error path. -/
def add_position (s : PMState) (now symbol : String) (side : Side)
    (quantity entry_price leverage take_profit stop_loss rsi_at_entry : ℚ) :
    String × PMState :=
  let position_id := symbol ++ "_" ++ now
  (position_id,
    ⟨dictInsert position_id
      (position_record position_id symbol side quantity entry_price leverage
        take_profit stop_loss rsi_at_entry now) s.positions⟩)

/-- Embeds `PositionManager.close_position`.  The two `raise ValueError`
paths of the source happen before any mutation, so they return the store
unchanged together with the error message. -/
def close_position (s : PMState) (position_id : String) (exit_price : ℚ)
    (reason now : String) : Except String PMPosition × PMState :=
  match dictGet position_id s.positions with
  | none => (.error ("Position " ++ position_id ++ " not found"), s)
  | some position =>
    if position.status ≠ .OPEN then
      (.error ("Position " ++ position_id ++ " is not open"), s)
    else
      let entry_price := position.entry_price
      let quantity := position.quantity
      let leverage := position.leverage
      let price_change :=
        match position.side with
        | .LONG => exit_price - entry_price
        | .SHORT => entry_price - exit_price
      let pnl := (price_change / entry_price) * quantity * entry_price * leverage
      let pnl_percent := (price_change / entry_price) * 100 * leverage
      let updated : PMPosition :=
        { position with
          exit_price := some exit_price, exit_time := some now,
          status := .CLOSED, pnl := pnl, pnl_percent := pnl_percent,
          exit_reason := some reason }
      (.ok updated, ⟨dictInsert position_id updated s.positions⟩)

/-- Embeds `PositionManager.get_open_positions`. -/
def get_open_positions (s : PMState) : List PMPosition :=
  (s.positions.map Prod.snd).filter (fun p => p.status = .OPEN)

/-- Embeds `PositionManager.get_position_by_symbol`. -/
def get_position_by_symbol (s : PMState) (symbol : String) : Option PMPosition :=
  (get_open_positions s).find? (fun p => p.symbol = symbol)

/-- Embeds `PositionManager.has_open_position`. -/
def has_open_position (s : PMState) (symbol : String) : Bool :=
  (get_position_by_symbol s symbol).isSome

/-- Number of stored OPEN positions for a symbol. -/
def open_count_for (s : PMState) (symbol : String) : Nat :=
  ((s.positions.map Prod.snd).filter
    (fun p => p.status = .OPEN ∧ p.symbol = symbol)).length

/-- The entry guard of `TradingBot.execute_trade` in `main.py`: the order
is placed and `add_position` reached only when the signal is LONG and
`has_open_position` is false (the exchange and notifier calls are external
collaborators and not modelled). -/
def execute_trade_proceeds (signalIsLong : Bool) (s : PMState) (symbol : String) : Bool :=
  if !signalIsLong then false
  else if has_open_position s symbol then false
  else true

/-! Embedding of `TradingStrategy.analyze_symbol` and of the backtest loop
in `src/backtest.py`. -/

inductive Signal
  | NONE
  | LONG
deriving DecidableEq

/-- Reasons produced by `analyze_symbol`.  The source renders them as
strings with two-decimal interpolations; the constructors keep the
interpolated quantities instead of the formatted text.  `noSignal` records
which failed-conjunct messages were emitted (each with its pair of compared
values). -/
inductive AnalysisReason
  | insufficientData
  | notConfiguredOrDisabled
  | longEntry (rsi rsi_threshold distance : ℚ)
  | noSignal (rsi_at_or_above : Option (ℚ × ℚ)) (distance_below : Option (ℚ × ℚ))
deriving DecidableEq

/-- The dict returned by `analyze_symbol`; keys absent from a branch are
`none`. -/
structure Analysis where
  symbol : String
  signal : Signal
  reason : AnalysisReason
  rsi : Option ℚ := none
  bb_upper : Option ℚ := none
  bb_middle : Option ℚ := none
  bb_lower : Option ℚ := none
  current_price : Option ℚ := none
  distance_from_bb_lower : Option ℚ := none
  config : Option SymbolConfig := none
deriving DecidableEq

def rsi_period : Nat := 6

def bb_period : Nat := 20

/-- Embeds `TradingStrategy.analyze_symbol` over the close column of the
OHLCV frame (the only column it reads).  The last-row Bollinger values
involve the square root of the rolling sample variance (pandas `.std()`),
which is not rational-valued; they are supplied by the `bb` argument
(upper, middle, lower at the last row) and every theorem below holds for
all such `bb`. -/
def analyze_symbol (bb : List ℚ → ℚ × ℚ × ℚ) (cfg : Config) (symbol : String)
    (closes : List ℚ) : Analysis :=
  if closes.length < max rsi_period bb_period then
    { symbol := symbol, signal := .NONE, reason := .insufficientData }
  else
    let rsiSeries := calculate_rsi closes rsi_period
    let bands := bb closes
    let current_price := closes.getLast?.getD 0
    let current_rsi := rsiSeries.getLast?.getD 0
    let sc := cfg.symbolConfig symbol
    if getEnabled sc = false then
      { symbol := symbol, signal := .NONE, reason := .notConfiguredOrDisabled,
        rsi := some current_rsi, bb_upper := some bands.1,
        bb_middle := some bands.2.1, bb_lower := some bands.2.2,
        current_price := some current_price }
    else
      let rsi_threshold := getRsiLongThreshold sc
      let distance_threshold := getShadowDistanceThreshold sc
      let long := is_long_signal current_rsi current_price bands.2.2
        rsi_threshold distance_threshold
      let distance_from_bb :=
        calculate_price_distance_from_bb_lower current_price bands.2.2
      if long then
        { symbol := symbol, signal := .LONG,
          reason := .longEntry current_rsi rsi_threshold distance_from_bb,
          rsi := some current_rsi, bb_upper := some bands.1,
          bb_middle := some bands.2.1, bb_lower := some bands.2.2,
          current_price := some current_price,
          distance_from_bb_lower := some distance_from_bb, config := sc }
      else
        { symbol := symbol, signal := .NONE,
          reason := .noSignal
            (if current_rsi ≥ rsi_threshold then some (current_rsi, rsi_threshold) else none)
            (if distance_from_bb < distance_threshold then some (distance_from_bb, distance_threshold) else none),
          rsi := some current_rsi, bb_upper := some bands.1,
          bb_middle := some bands.2.1, bb_lower := some bands.2.2,
          current_price := some current_price,
          distance_from_bb_lower := some distance_from_bb, config := sc }

/-- The position dict built by `Backtester.run_backtest` on a LONG signal
with no open position. -/
structure BtPosition where
  symbol : String
  side : Side
  entry_time : ℚ
  entry_price : ℚ
  quantity : ℚ
  take_profit : ℚ
  stop_loss : ℚ
  rsi_at_entry : Option ℚ
  leverage : ℚ
deriving DecidableEq

def bt_open_position (cfg : Config) (symbol : String)
    (current_time entry_price : ℚ) (rsi : Option ℚ) : BtPosition :=
  let quantity := calculate_position_size cfg symbol entry_price
  let levels := calculate_take_profit_stop_loss cfg symbol entry_price .LONG
  { symbol := symbol, side := .LONG, entry_time := current_time,
    entry_price := entry_price, quantity := quantity,
    take_profit := levels.1, stop_loss := levels.2, rsi_at_entry := rsi,
    leverage := getLeverage (cfg.symbolConfig symbol) }

/-- The inline exit check of `Backtester.run_backtest`: the bar close
price against the take-profit and stop-loss stored in the position at
entry, inclusively, take profit first; only LONG positions are checked. -/
def bt_exit_check (position : BtPosition) (current_price : ℚ) :
    Bool × Option ExitTrigger :=
  if position.side = .LONG then
    if current_price ≥ position.take_profit then (true, some .takeProfit)
    else if current_price ≤ position.stop_loss then (true, some .stopLoss)
    else (false, none)
  else (false, none)

/-- The trade dict appended by `Backtester.run_backtest` at a close
(timestamps are rationals counted in seconds, so the source conversion of
the duration to minutes divides by 60). -/
structure BtTrade where
  symbol : String
  side : Side
  entry_time : ℚ
  exit_time : ℚ
  entry_price : ℚ
  exit_price : ℚ
  quantity : ℚ
  leverage : ℚ
  rsi_at_entry : Option ℚ
  pnl_percent : ℚ
  pnl_usdt : ℚ
  exit_reason : ExitTrigger
  duration_minutes : ℚ
deriving DecidableEq

def bt_close_trade (cfg : Config) (symbol : String) (position : BtPosition)
    (current_time exit_price : ℚ) (exit_reason : ExitTrigger) : BtTrade :=
  let price_change :=
    match position.side with
    | .LONG => exit_price - position.entry_price
    | .SHORT => position.entry_price - exit_price
  let pnl_percent := price_change / position.entry_price * 100 * position.leverage
  let pnl_usdt := price_change / position.entry_price
    * getTradeVolume (cfg.symbolConfig symbol) * position.leverage
  { symbol := symbol, side := position.side, entry_time := position.entry_time,
    exit_time := current_time, entry_price := position.entry_price,
    exit_price := exit_price, quantity := position.quantity,
    leverage := position.leverage, rsi_at_entry := position.rsi_at_entry,
    pnl_percent := pnl_percent, pnl_usdt := pnl_usdt,
    exit_reason := exit_reason,
    duration_minutes := (current_time - position.entry_time) / 60 }

/-- The loop state of `run_backtest`: the single `position` local (at most
one open position, mirrored by `Option`) and the trades accumulated so
far. -/
structure BtState where
  position : Option BtPosition := none
  trades : List BtTrade := []
deriving DecidableEq

/-- The columns of a historical bar the backtest loop reads: its index
timestamp and its close (open, high, low and volume are never consulted by
the loop). -/
structure Candle where
  timestamp : ℚ
  close : ℚ
deriving DecidableEq

/-- One iteration of the `run_backtest` loop: `closesUpTo` is the close
column of `df.iloc[:i+1]` and `current_time` is `df.index[i]`.  When the
analysis carries no price (its insufficient-data branch) the state is
returned unchanged; the loop below never reaches that case, since its
windows have at least 21 bars, and a LONG signal always carries a price. -/
def bt_step (bb : List ℚ → ℚ × ℚ × ℚ) (cfg : Config) (symbol : String)
    (closesUpTo : List ℚ) (current_time : ℚ) (s : BtState) : BtState :=
  let analysis := analyze_symbol bb cfg symbol closesUpTo
  match s.position with
  | none =>
    if analysis.signal = .LONG then
      match analysis.current_price with
      | some entry_price =>
        { s with
          position :=
            some (bt_open_position cfg symbol current_time entry_price analysis.rsi) }
      | none => s
    else s
  | some position =>
    match analysis.current_price with
    | none => s
    | some current_price =>
      match bt_exit_check position current_price with
      | (true, some reason) =>
        { position := none,
          trades := s.trades ++
            [bt_close_trade cfg symbol position current_time current_price reason] }
      | _ => s

/-- Embeds `Backtester.run_backtest`: skip disabled or unconfigured
symbols, then iterate `i` over `range(max(20, 6), len(df))` feeding the
growing prefix window to the evaluator. -/
def run_backtest (bb : List ℚ → ℚ × ℚ × ℚ) (cfg : Config) (symbol : String)
    (candles : List Candle) : List BtTrade :=
  if getEnabled (cfg.symbolConfig symbol) = false then []
  else
    let closes := candles.map Candle.close
    let final := (List.range' (max 20 6) (candles.length - max 20 6)).foldl
      (fun s i => bt_step bb cfg symbol (closes.take (i + 1))
        ((candles.getD i ⟨0, 0⟩).timestamp) s)
      ⟨none, []⟩
    final.trades

/-! Helper lemmas about the indicator embedding. -/

/-- Decomposition of membership in a `zipWith`. -/
theorem exists_of_mem_zipWith {f : ℚ → ℚ → ℚ} :
    ∀ (as bs : List ℚ) (x : ℚ), x ∈ List.zipWith f as bs →
      ∃ a ∈ as, ∃ b ∈ bs, x = f a b
  | [], _, x, hx => by simp at hx
  | _ :: _, [], x, hx => by simp at hx
  | a :: as, b :: bs, x, hx => by
    rcases List.mem_cons.1 hx with h | h
    · exact ⟨a, List.mem_cons_self a as, b, List.mem_cons_self b bs, h⟩
    · obtain ⟨a', ha, b', hb, rfl⟩ := exists_of_mem_zipWith as bs x h
      exact ⟨a', List.mem_cons_of_mem a ha, b', List.mem_cons_of_mem b hb, rfl⟩

theorem gains_nonneg (closes : List ℚ) : ∀ x ∈ gains closes, 0 ≤ x := by
  cases closes with
  | nil => intro x hx; simp [gains] at hx
  | cons c rest =>
    intro x hx
    rcases List.mem_cons.1 hx with rfl | hx
    · exact le_refl 0
    · obtain ⟨d, _, rfl⟩ := List.mem_map.1 hx
      split
      · exact le_of_lt (by assumption)
      · exact le_refl 0

theorem losses_nonneg (closes : List ℚ) : ∀ x ∈ losses closes, 0 ≤ x := by
  cases closes with
  | nil => intro x hx; simp [losses] at hx
  | cons c rest =>
    intro x hx
    rcases List.mem_cons.1 hx with rfl | hx
    · exact le_refl 0
    · obtain ⟨d, hd, rfl⟩ := List.mem_map.1 hx
      split
      · linarith [show d < 0 by assumption]
      · exact le_refl 0

theorem rollingMean1_nonneg (period : Nat) (xs : List ℚ) (h : ∀ x ∈ xs, 0 ≤ x) :
    ∀ y ∈ rollingMean1 period xs, 0 ≤ y := by
  intro y hy
  unfold rollingMean1 at hy
  obtain ⟨i, _, rfl⟩ := List.mem_map.1 hy
  apply div_nonneg
  · apply List.sum_nonneg
    intro a ha
    exact h a (List.mem_of_mem_take (List.mem_of_mem_drop ha))
  · exact Nat.cast_nonneg _

/-- The first entry of a rolling mean of a list starting with 0 is 0. -/
theorem rollingMean1_zero_head (period : Nat) (xs : List ℚ) :
    ∃ ys, rollingMean1 period (0 :: xs) = 0 :: ys := by
  refine ⟨List.map ((fun i =>
      let k := min (i + 1) period
      ((((0 :: xs).take (i + 1)).drop (i + 1 - k)).sum) / (k : ℚ)) ∘ Nat.succ)
      (List.range xs.length), ?_⟩
  unfold rollingMean1
  rw [List.length_cons, List.range_succ_eq_map, List.map_cons, List.map_map]
  congr 1
  rcases period with _ | p <;> simp

theorem diffs_replicate (c : ℚ) : ∀ n : Nat,
    diffs (List.replicate n c) = List.replicate (n - 1) 0
  | 0 => rfl
  | 1 => rfl
  | (m + 2) => by
    have ih := diffs_replicate c (m + 1)
    have h2 : List.replicate (m + 2) c = c :: c :: List.replicate m c := by
      simp [List.replicate_succ]
    have h1 : List.replicate (m + 1) c = c :: List.replicate m c := by
      simp [List.replicate_succ]
    rw [h2, show diffs (c :: c :: List.replicate m c)
        = (c - c) :: diffs (c :: List.replicate m c) from rfl]
    rw [h1] at ih
    rw [ih]
    simp [List.replicate_succ]

theorem gains_replicate (n : Nat) (c : ℚ) :
    gains (List.replicate n c) = List.replicate n 0 := by
  cases n with
  | zero => rfl
  | succ m =>
    have h1 : List.replicate (m + 1) c = c :: List.replicate m c := by
      simp [List.replicate_succ]
    rw [h1, show gains (c :: List.replicate m c)
        = 0 :: (diffs (c :: List.replicate m c)).map (fun d => if d > 0 then d else 0) from rfl]
    rw [← h1, diffs_replicate]
    simp [List.replicate_succ]

theorem losses_replicate (n : Nat) (c : ℚ) :
    losses (List.replicate n c) = List.replicate n 0 := by
  cases n with
  | zero => rfl
  | succ m =>
    have h1 : List.replicate (m + 1) c = c :: List.replicate m c := by
      simp [List.replicate_succ]
    rw [h1, show losses (c :: List.replicate m c)
        = 0 :: (diffs (c :: List.replicate m c)).map (fun d => if d < 0 then -d else 0) from rfl]
    rw [← h1, diffs_replicate]
    simp [List.replicate_succ]

theorem rollingMean1_replicate_zero (period n : Nat) :
    rollingMean1 period (List.replicate n (0 : ℚ)) = List.replicate n 0 := by
  unfold rollingMean1
  rw [List.length_replicate]
  apply List.eq_replicate.mpr
  refine ⟨by simp, ?_⟩
  intro b hb
  obtain ⟨i, _, rfl⟩ := List.mem_map.1 hb
  simp [List.take_replicate, List.drop_replicate, List.sum_replicate]

theorem zipWith_replicate_eq {α β γ : Type} (f : α → β → γ) (a : α) (b : β) :
    ∀ n : Nat, List.zipWith f (List.replicate n a) (List.replicate n b)
      = List.replicate n (f a b)
  | 0 => rfl
  | (m + 1) => by
    simp only [List.replicate_succ, List.zipWith_cons_cons]
    rw [zipWith_replicate_eq f a b m]

/-- On a constant close series every RSI value of the embedding is 0. -/
theorem calculate_rsi_replicate (n : Nat) (c : ℚ) (period : Nat) :
    calculate_rsi (List.replicate n c) period = List.replicate n 0 := by
  unfold calculate_rsi
  rw [gains_replicate, losses_replicate, rollingMean1_replicate_zero,
    zipWith_replicate_eq]
  congr 1
  rw [rsiEps]
  norm_num

/-- The first RSI value of any nonempty close series is 0. -/
theorem calculate_rsi_head_eq_zero (closes : List ℚ) (h : closes ≠ []) (period : Nat) :
    (calculate_rsi closes period).get? 0 = some 0 := by
  obtain ⟨c, rest, rfl⟩ := List.exists_cons_of_ne_nil h
  obtain ⟨gs, hgs⟩ :=
    rollingMean1_zero_head period ((diffs (c :: rest)).map fun d => if d > 0 then d else 0)
  obtain ⟨ls, hls⟩ :=
    rollingMean1_zero_head period ((diffs (c :: rest)).map fun d => if d < 0 then -d else 0)
  unfold calculate_rsi
  rw [show gains (c :: rest)
      = 0 :: (diffs (c :: rest)).map (fun d => if d > 0 then d else 0) from rfl,
    show losses (c :: rest)
      = 0 :: (diffs (c :: rest)).map (fun d => if d < 0 then -d else 0) from rfl,
    hgs, hls, List.zipWith_cons_cons]
  rw [rsiEps]
  norm_num

/-! Claim theorems about the indicator layer. -/

/-- Claim C6: `is_long_signal` is true exactly when both the RSI conjunct
and the band-distance conjunct hold; it is false whenever either fails. -/
theorem is_long_signal_iff (rsi price lower_band rsi_threshold distance_threshold : ℚ) :
    is_long_signal rsi price lower_band rsi_threshold distance_threshold = true ↔
      (rsi < rsi_threshold ∧
        calculate_price_distance_from_bb_lower price lower_band ≥ distance_threshold) := by
  simp [is_long_signal]

/-- Claim C9: every value of the computed RSI series lies in `[0, 100]`,
for every close series and every period of at least 1. -/
theorem calculate_rsi_bounded (closes : List ℚ) (period : Nat) (hp : 1 ≤ period) :
    ∀ x ∈ calculate_rsi closes period, 0 ≤ x ∧ x ≤ 100 := by
  intro x hx
  unfold calculate_rsi at hx
  obtain ⟨g, hg, l, hl, rfl⟩ := exists_of_mem_zipWith _ _ _ hx
  have hg0 : 0 ≤ g := rollingMean1_nonneg _ _ (gains_nonneg closes) g hg
  have hl0 : 0 ≤ l := rollingMean1_nonneg _ _ (losses_nonneg closes) l hl
  have heps : (0 : ℚ) < rsiEps := by rw [rsiEps]; norm_num
  have hden : (0 : ℚ) < l + rsiEps := by linarith
  have hrs : 0 ≤ g / (l + rsiEps) := div_nonneg hg0 hden.le
  constructor
  · have hdiv : 100 / (1 + g / (l + rsiEps)) ≤ 100 :=
      div_le_self (by norm_num) (by linarith)
    linarith
  · have hdiv : 0 ≤ 100 / (1 + g / (l + rsiEps)) :=
      div_nonneg (by norm_num) (by linarith)
    linarith

/-- Witness for C9 at the concrete series `[1, 1]`, period 6 (whose RSI
series evaluates to `[0, 0]`). -/
theorem calculate_rsi_bounded_witness : 0 ≤ (0 : ℚ) ∧ (0 : ℚ) ≤ 100 :=
  calculate_rsi_bounded [1, 1] 6 (by norm_num) 0 (by
    rw [show [(1 : ℚ), 1] = List.replicate 2 1 from rfl, calculate_rsi_replicate]
    exact List.mem_replicate.2 ⟨by norm_num, rfl⟩)

/-- Claim C2 counterexample: on the flat series `[1, 1, 1, 1]` the RSI at
the first bar is 0, not the neutral 50 the claim states (the zero-filled
gain and loss averages give `rs = 0`, hence `rsi = 100 - 100/1 = 0`). -/
theorem rsi_first_bar_is_zero_not_fifty :
    (calculate_rsi [1, 1, 1, 1] 6).get? 0 = some 0 ∧
      (calculate_rsi [1, 1, 1, 1] 6).get? 0 ≠ some (50 : ℚ) := by
  have h : calculate_rsi [1, 1, 1, 1] 6 = List.replicate 4 0 := by
    rw [show [(1 : ℚ), 1, 1, 1] = List.replicate 4 1 from rfl, calculate_rsi_replicate]
  rw [h]
  norm_num [List.replicate_succ]

/-- Claim C2 (amended): at every position with no prior price movement the
RSI equals 0 — the first bar of any nonempty series, and every bar of a
constant series.  The `fillna(50)` of the source only replaces NaN entries,
which never occur for NaN-free input. -/
theorem rsi_no_prior_movement_eq_zero (period : Nat) :
    (∀ closes : List ℚ, closes ≠ [] → (calculate_rsi closes period).get? 0 = some 0) ∧
      (∀ (n : Nat) (c : ℚ), ∀ x ∈ calculate_rsi (List.replicate n c) period, x = 0) := by
  constructor
  · intro closes h
    exact calculate_rsi_head_eq_zero closes h period
  · intro n c x hx
    rw [calculate_rsi_replicate] at hx
    exact List.eq_of_mem_replicate hx

/-- Witness for the amended C2 at the series `[3, 3]`. -/
theorem rsi_no_prior_movement_eq_zero_witness :
    (calculate_rsi [(3 : ℚ), 3] 6).get? 0 = some 0 ∧ (0 : ℚ) = 0 :=
  ⟨(rsi_no_prior_movement_eq_zero 6).1 [3, 3] (List.cons_ne_nil 3 [3]),
    (rsi_no_prior_movement_eq_zero 6).2 2 3 0 (by
      rw [calculate_rsi_replicate]
      exact List.mem_replicate.2 ⟨by norm_num, rfl⟩)⟩

/-! Claim theorems about the strategy exit logic. -/

/-- Claim C4: for a LONG position (any nonzero entry price — every opened
position records the positive market price, and a zero entry price means
the guarded no-entry-price degenerate record) the exit check returns
take profit exactly on `price ≥ entry*(1 + tp/100)`, otherwise stop loss
exactly on `price ≤ entry*(1 - sl/100)`, otherwise no close; both bounds
inclusive, take profit checked first. -/
theorem should_close_long_characterization (cfg : Config) (symbol : String)
    (entry_price current_price : ℚ) (h : entry_price ≠ 0) :
    should_close_position cfg symbol ⟨entry_price, .LONG⟩ current_price =
      (if current_price ≥
          entry_price * (1 + getTakeProfitPercent (cfg.symbolConfig symbol) / 100) then
        (true, .trigger .takeProfit)
      else if current_price ≤
          entry_price * (1 - getStopLossPercent (cfg.symbolConfig symbol) / 100) then
        (true, .trigger .stopLoss)
      else (false, .noExitSignal)) := by
  simp [should_close_position, calculate_take_profit_stop_loss, h]

/-- Witness for C4 at entry 100, price 102, empty config (default 2%
take profit): close with take profit. -/
theorem should_close_long_characterization_witness :
    (100 : ℚ) ≠ 0 ∧
      should_close_position ⟨[]⟩ "BTCUSDT" ⟨100, .LONG⟩ 102 =
        (if (102 : ℚ) ≥
            100 * (1 + getTakeProfitPercent ((⟨[]⟩ : Config).symbolConfig "BTCUSDT") / 100) then
          (true, .trigger .takeProfit)
        else if (102 : ℚ) ≤
            100 * (1 - getStopLossPercent ((⟨[]⟩ : Config).symbolConfig "BTCUSDT") / 100) then
          (true, .trigger .stopLoss)
        else (false, .noExitSignal)) :=
  ⟨by norm_num, should_close_long_characterization ⟨[]⟩ "BTCUSDT" 100 102 (by norm_num)⟩

/-- Claim C3: under a fixed symbol config, the backtest exit decision
(bar price against the levels stored in the position at entry) and the
live `should_close_position` (which recomputes the levels from entry
price and config) agree for every current price: same close flag, and
when closing, the same reason. -/
theorem bt_exit_agrees_with_live (cfg : Config) (symbol : String)
    (current_time entry_price : ℚ) (rsi : Option ℚ) (current_price : ℚ)
    (h : entry_price ≠ 0) :
    (bt_exit_check (bt_open_position cfg symbol current_time entry_price rsi)
          current_price).1 =
        (should_close_position cfg symbol ⟨entry_price, .LONG⟩ current_price).1 ∧
      ∀ t : ExitTrigger,
        (bt_exit_check (bt_open_position cfg symbol current_time entry_price rsi)
            current_price).2 = some t ↔
          (should_close_position cfg symbol ⟨entry_price, .LONG⟩ current_price).2
            = .trigger t := by
  by_cases h1 : current_price ≥
      (calculate_take_profit_stop_loss cfg symbol entry_price .LONG).1
  · constructor
    · simp [bt_exit_check, bt_open_position, should_close_position, h, h1]
    · intro t
      cases t <;>
        simp [bt_exit_check, bt_open_position, should_close_position, h, h1]
  · by_cases h2 : current_price ≤
        (calculate_take_profit_stop_loss cfg symbol entry_price .LONG).2
    · constructor
      · simp [bt_exit_check, bt_open_position, should_close_position, h, h1, h2]
      · intro t
        cases t <;>
          simp [bt_exit_check, bt_open_position, should_close_position, h, h1, h2]
    · constructor
      · simp [bt_exit_check, bt_open_position, should_close_position, h, h1, h2]
      · intro t
        cases t <;>
          simp [bt_exit_check, bt_open_position, should_close_position, h, h1, h2]

/-- Witness for C3 at entry 100, price 101, empty config (levels 102 and
99): both paths hold the position. -/
theorem bt_exit_agrees_with_live_witness :
    (100 : ℚ) ≠ 0 ∧
      ((bt_exit_check (bt_open_position ⟨[]⟩ "BTCUSDT" 0 100 none) 101).1 =
          (should_close_position ⟨[]⟩ "BTCUSDT" ⟨100, .LONG⟩ 101).1 ∧
        ∀ t : ExitTrigger,
          (bt_exit_check (bt_open_position ⟨[]⟩ "BTCUSDT" 0 100 none) 101).2 = some t ↔
            (should_close_position ⟨[]⟩ "BTCUSDT" ⟨100, .LONG⟩ 101).2 = .trigger t) :=
  ⟨by norm_num, bt_exit_agrees_with_live ⟨[]⟩ "BTCUSDT" 0 100 none 101 (by norm_num)⟩

/-- Claim C8: quantity times entry price equals the configured trade
volume exactly in rational arithmetic — for the sizing function itself,
for the position dict the backtest opens, and for the record the live
path hands to `add_position` (both are sized from the same price they
record as the entry price). -/
theorem quantity_times_entry_eq_trade_volume (cfg : Config) (symbol : String)
    (price : ℚ) (h : price ≠ 0) :
    calculate_position_size cfg symbol price * price
        = getTradeVolume (cfg.symbolConfig symbol) ∧
      (∀ (current_time : ℚ) (rsi : Option ℚ),
        (bt_open_position cfg symbol current_time price rsi).quantity *
            (bt_open_position cfg symbol current_time price rsi).entry_price
          = getTradeVolume (cfg.symbolConfig symbol)) ∧
      (∀ (position_id now : String) (side : Side) (lev tp sl r : ℚ),
        (position_record position_id symbol side
              (calculate_position_size cfg symbol price) price lev tp sl r now).quantity *
            (position_record position_id symbol side
              (calculate_position_size cfg symbol price) price lev tp sl r now).entry_price
          = getTradeVolume (cfg.symbolConfig symbol)) := by
  have key : calculate_position_size cfg symbol price * price
      = getTradeVolume (cfg.symbolConfig symbol) := by
    unfold calculate_position_size
    exact div_mul_cancel₀ _ h
  exact ⟨key, fun _ _ => key, fun _ _ _ _ _ _ _ => key⟩

/-- Witness for C8 at price 100 and the empty config (trade volume
defaults to 20). -/
theorem quantity_times_entry_eq_trade_volume_witness :
    calculate_position_size ⟨[]⟩ "BTCUSDT" 100 * 100
        = getTradeVolume ((⟨[]⟩ : Config).symbolConfig "BTCUSDT") ∧
      (bt_open_position ⟨[]⟩ "BTCUSDT" 0 100 none).quantity *
          (bt_open_position ⟨[]⟩ "BTCUSDT" 0 100 none).entry_price
        = getTradeVolume ((⟨[]⟩ : Config).symbolConfig "BTCUSDT") :=
  ⟨(quantity_times_entry_eq_trade_volume ⟨[]⟩ "BTCUSDT" 100 (by norm_num)).1,
    (quantity_times_entry_eq_trade_volume ⟨[]⟩ "BTCUSDT" 100 (by norm_num)).2.1 0 none⟩

/-! Helper lemmas about the association-list dictionary. -/

theorem dictGet_dictInsert {α : Type} (k : String) (v : α) :
    ∀ l : List (String × α), dictGet k (dictInsert k v l) = some v
  | [] => by simp [dictGet, dictInsert]
  | (k', v') :: rest => by
    by_cases hk : k' = k
    · simp [dictGet, dictInsert, hk]
    · simp [dictGet, dictInsert, hk, dictGet_dictInsert k v rest]

theorem dictInsert_fresh {α : Type} (k : String) (v : α) :
    ∀ l : List (String × α), dictGet k l = none → dictInsert k v l = l ++ [(k, v)]
  | [], _ => rfl
  | (k', v') :: rest, h => by
    by_cases hk : k' = k
    · simp [dictGet, hk] at h
    · simp only [dictInsert, if_neg hk, List.cons_append, List.cons.injEq, true_and]
      exact dictInsert_fresh k v rest (by simpa [dictGet, hk] using h)

/-- A successful close of an OPEN position stores a CLOSED record under
the same id. -/
theorem close_position_open_result (s : PMState) (position_id : String)
    (exit_price : ℚ) (reason now : String) (p : PMPosition)
    (hp : dictGet position_id s.positions = some p) (hopen : p.status = .OPEN) :
    ∃ q : PMPosition,
      close_position s position_id exit_price reason now
          = (.ok q, ⟨dictInsert position_id q s.positions⟩) ∧
        q.status = .CLOSED := by
  unfold close_position
  rw [hp]
  dsimp only
  rw [if_neg (by simp [hopen])]
  exact ⟨_, rfl, rfl⟩

/-! Claim theorems about the position store. -/

/-- Claim C7: `close_position` fails on an unknown id and on a non-OPEN
position (in particular a second close of the same position), and in both
error cases the store is returned unchanged. -/
theorem close_position_error_cases (s : PMState) (position_id : String)
    (exit_price : ℚ) (reason now : String) :
    (dictGet position_id s.positions = none →
      close_position s position_id exit_price reason now
        = (.error ("Position " ++ position_id ++ " not found"), s)) ∧
      (∀ p : PMPosition, dictGet position_id s.positions = some p →
        p.status ≠ .OPEN →
        close_position s position_id exit_price reason now
          = (.error ("Position " ++ position_id ++ " is not open"), s)) ∧
      (∀ p : PMPosition, dictGet position_id s.positions = some p →
        p.status = .OPEN →
        ∀ (price2 : ℚ) (reason2 now2 : String),
          close_position (close_position s position_id exit_price reason now).2
              position_id price2 reason2 now2
            = (.error ("Position " ++ position_id ++ " is not open"),
                (close_position s position_id exit_price reason now).2)) := by
  refine ⟨?_, ?_, ?_⟩
  · intro hnone
    unfold close_position
    rw [hnone]
  · intro p hp hstat
    unfold close_position
    rw [hp]
    dsimp only
    rw [if_pos hstat]
  · intro p hp hopen price2 reason2 now2
    obtain ⟨q, hq, hqs⟩ :=
      close_position_open_result s position_id exit_price reason now p hp hopen
    rw [hq]
    unfold close_position
    rw [show dictGet position_id
        (PMState.mk (dictInsert position_id q s.positions)).positions = some q from
      dictGet_dictInsert position_id q s.positions]
    dsimp only
    rw [if_pos (by simp [hqs])]

/-- Witness for C7: closing an unknown id on the empty store errors and
leaves the store empty. -/
theorem close_position_error_cases_witness :
    close_position ⟨[]⟩ "BTCUSDT_x" 100 "Take Profit" "t"
      = (.error ("Position " ++ "BTCUSDT_x" ++ " not found"), (⟨[]⟩ : PMState)) :=
  (close_position_error_cases ⟨[]⟩ "BTCUSDT_x" 100 "Take Profit" "t").1 rfl

/-- Claim C1 counterexample: with an OPEN BTCUSDT position already stored,
`add_position` for the same symbol does not fail — it has no error path at
all — and the store afterwards holds two OPEN positions for the symbol. -/
theorem add_position_accepts_duplicate_open :
    has_open_position
        (add_position ⟨[]⟩ "t0" "BTCUSDT" .LONG 1 100 10 102 99 25).2 "BTCUSDT" = true ∧
      open_count_for
        (add_position (add_position ⟨[]⟩ "t0" "BTCUSDT" .LONG 1 100 10 102 99 25).2
          "t1" "BTCUSDT" .LONG 1 100 10 102 99 25).2 "BTCUSDT" = 2 := by
  constructor <;> rfl

/-- Claim C1 (amended): `add_position` raises no error and performs no
duplicate-open check: whenever its generated id is fresh it stores one
more OPEN position for the symbol, even when one is already OPEN.  The
at-most-one-open-position invariant is enforced only by the caller:
`execute_trade` skips (returns without adding) when `has_open_position`
is true. -/
theorem add_position_no_state_error (s : PMState) (now symbol : String)
    (side : Side)
    (quantity entry_price leverage take_profit stop_loss rsi_at_entry : ℚ)
    (hfresh : dictGet (symbol ++ "_" ++ now) s.positions = none) :
    open_count_for
        (add_position s now symbol side quantity entry_price leverage
          take_profit stop_loss rsi_at_entry).2 symbol
      = open_count_for s symbol + 1 ∧
    (has_open_position s symbol = true →
      execute_trade_proceeds true s symbol = false) := by
  constructor
  · show open_count_for
        ⟨dictInsert (symbol ++ "_" ++ now) _ s.positions⟩ symbol = _
    rw [open_count_for, dictInsert_fresh _ _ _ hfresh]
    simp [open_count_for, position_record, List.filter_append]
  · intro hopen
    simp [execute_trade_proceeds, hopen]

/-- Witness for the amended C1: a store holding one OPEN BTCUSDT position
accepts a second one (count goes from 1 to 2), while the caller guard
skips. -/
theorem add_position_no_state_error_witness :
    open_count_for
        (add_position (add_position ⟨[]⟩ "t0" "BTCUSDT" .LONG 1 100 10 102 99 25).2
          "t1" "BTCUSDT" .LONG 1 100 10 102 99 25).2 "BTCUSDT"
      = open_count_for
          (add_position ⟨[]⟩ "t0" "BTCUSDT" .LONG 1 100 10 102 99 25).2 "BTCUSDT" + 1 ∧
    execute_trade_proceeds true
        (add_position ⟨[]⟩ "t0" "BTCUSDT" .LONG 1 100 10 102 99 25).2 "BTCUSDT" = false :=
  ⟨(add_position_no_state_error
      (add_position ⟨[]⟩ "t0" "BTCUSDT" .LONG 1 100 10 102 99 25).2
      "t1" "BTCUSDT" .LONG 1 100 10 102 99 25 rfl).1,
    (add_position_no_state_error
      (add_position ⟨[]⟩ "t0" "BTCUSDT" .LONG 1 100 10 102 99 25).2
      "t1" "BTCUSDT" .LONG 1 100 10 102 99 25 rfl).2 rfl⟩

/-! Claim theorems about the evaluator and the backtest loop. -/

/-- Claim C5: on any candle window shorter than
`max(rsiPeriod, bbPeriod) = 20` bars, `analyze_symbol` returns signal
NONE with the insufficient-data reason and no indicator values (every
snapshot field `none`), for every symbol, config and band function. -/
theorem analyze_symbol_insufficient (bb : List ℚ → ℚ × ℚ × ℚ) (cfg : Config)
    (symbol : String) (closes : List ℚ) (h : closes.length < 20) :
    analyze_symbol bb cfg symbol closes =
      { symbol := symbol, signal := .NONE, reason := .insufficientData,
        rsi := none, bb_upper := none, bb_middle := none, bb_lower := none,
        current_price := none, distance_from_bb_lower := none, config := none } := by
  have h' : closes.length < max rsi_period bb_period := by
    simpa [rsi_period, bb_period] using h
  unfold analyze_symbol
  rw [if_pos h']

/-- Witness for C5 on the empty window. -/
theorem analyze_symbol_insufficient_witness :
    analyze_symbol (fun _ => (0, 0, 0)) ⟨[]⟩ "BTCUSDT" [] =
      { symbol := "BTCUSDT", signal := .NONE, reason := .insufficientData,
        rsi := none, bb_upper := none, bb_middle := none, bb_lower := none,
        current_price := none, distance_from_bb_lower := none, config := none } :=
  analyze_symbol_insufficient (fun _ => (0, 0, 0)) ⟨[]⟩ "BTCUSDT" [] (by norm_num)

/-- Every backtest bar either leaves the trade list unchanged or appends
exactly one trade closed at that bar's timestamp. -/
theorem bt_step_trades_shape (bb : List ℚ → ℚ × ℚ × ℚ) (cfg : Config)
    (symbol : String) (closesUpTo : List ℚ) (current_time : ℚ) (s : BtState) :
    (bt_step bb cfg symbol closesUpTo current_time s).trades = s.trades ∨
      ∃ t, (bt_step bb cfg symbol closesUpTo current_time s).trades
          = s.trades ++ [t] ∧ t.exit_time = current_time := by
  cases hpos : s.position with
  | none =>
    by_cases hsig : (analyze_symbol bb cfg symbol closesUpTo).signal = .LONG
    · cases hcp : (analyze_symbol bb cfg symbol closesUpTo).current_price <;>
        exact Or.inl (by simp [bt_step, hpos, hsig, hcp])
    · exact Or.inl (by simp [bt_step, hpos, hsig])
  | some p =>
    cases hcp : (analyze_symbol bb cfg symbol closesUpTo).current_price with
    | none => exact Or.inl (by simp [bt_step, hpos, hcp])
    | some price =>
      rcases hec : bt_exit_check p price with ⟨b, r⟩
      cases b with
      | false => cases r <;> exact Or.inl (by simp [bt_step, hpos, hcp, hec])
      | true =>
        cases r with
        | none => exact Or.inl (by simp [bt_step, hpos, hcp, hec])
        | some trig =>
          exact Or.inr ⟨bt_close_trade cfg symbol p current_time price trig,
            by simp [bt_step, hpos, hcp, hec], rfl⟩

/-- Trades accumulated by folding the backtest step over a list of bar
indices come either from the initial state or from a close at one of
those bars. -/
theorem bt_foldl_trades (bb : List ℚ → ℚ × ℚ × ℚ) (cfg : Config)
    (symbol : String) (candles : List Candle) :
    ∀ (L : List Nat) (s0 : BtState) (t : BtTrade),
      t ∈ (L.foldl (fun s i => bt_step bb cfg symbol
          ((candles.map Candle.close).take (i + 1))
          ((candles.getD i ⟨0, 0⟩).timestamp) s) s0).trades →
      t ∈ s0.trades ∨ ∃ i ∈ L, t.exit_time = (candles.getD i ⟨0, 0⟩).timestamp
  | [], _, _, ht => Or.inl ht
  | i :: L, s0, t, ht => by
    rcases bt_foldl_trades bb cfg symbol candles L _ t ht with h | ⟨j, hj, hx⟩
    · rcases bt_step_trades_shape bb cfg symbol
          ((candles.map Candle.close).take (i + 1))
          ((candles.getD i ⟨0, 0⟩).timestamp) s0 with hs | ⟨u, hu, hux⟩
      · rw [hs] at h
        exact Or.inl h
      · rw [hu] at h
        rcases List.mem_append.1 h with h | h
        · exact Or.inl h
        · refine Or.inr ⟨i, List.mem_cons_self i L, ?_⟩
          rw [List.mem_singleton.1 h]
          exact hux
    · exact Or.inr ⟨j, List.mem_cons_of_mem i hj, hx⟩

/-- Claim C10: the backtest loop keeps at most one position (its state
holds a single optional position, mirroring the single `position` local of
the source); a bar entered with an open position either keeps exactly that
position with no new trade or closes it — it never opens another position
at the same bar; a bar entered with no position never emits a trade; and
every trade in the returned list was closed at one of the processed bars,
so a position still open after the last bar contributes no trade. -/
theorem backtest_position_lifecycle (bb : List ℚ → ℚ × ℚ × ℚ) (cfg : Config)
    (symbol : String) :
    (∀ (closesUpTo : List ℚ) (current_time : ℚ) (s : BtState) (p : BtPosition),
      s.position = some p →
        ((bt_step bb cfg symbol closesUpTo current_time s).position = some p ∧
          (bt_step bb cfg symbol closesUpTo current_time s).trades = s.trades) ∨
        ((bt_step bb cfg symbol closesUpTo current_time s).position = none ∧
          ∃ t, (bt_step bb cfg symbol closesUpTo current_time s).trades
              = s.trades ++ [t] ∧
            t.entry_time = p.entry_time ∧ t.exit_time = current_time)) ∧
    (∀ (closesUpTo : List ℚ) (current_time : ℚ) (s : BtState),
      s.position = none →
        (bt_step bb cfg symbol closesUpTo current_time s).trades = s.trades) ∧
    (∀ (candles : List Candle), ∀ t ∈ run_backtest bb cfg symbol candles,
      ∃ i, 20 ≤ i ∧ i < candles.length ∧
        t.exit_time = (candles.getD i ⟨0, 0⟩).timestamp) := by
  refine ⟨?_, ?_, ?_⟩
  · intro closesUpTo current_time s p hpos
    cases hcp : (analyze_symbol bb cfg symbol closesUpTo).current_price with
    | none =>
      exact Or.inl ⟨by simp [bt_step, hpos, hcp], by simp [bt_step, hpos, hcp]⟩
    | some price =>
      rcases hec : bt_exit_check p price with ⟨b, r⟩
      cases b with
      | false =>
        cases r <;>
          exact Or.inl ⟨by simp [bt_step, hpos, hcp, hec], by simp [bt_step, hpos, hcp, hec]⟩
      | true =>
        cases r with
        | none =>
          exact Or.inl ⟨by simp [bt_step, hpos, hcp, hec], by simp [bt_step, hpos, hcp, hec]⟩
        | some trig =>
          refine Or.inr ⟨by simp [bt_step, hpos, hcp, hec],
            bt_close_trade cfg symbol p current_time price trig,
            by simp [bt_step, hpos, hcp, hec], rfl, rfl⟩
  · intro closesUpTo current_time s hpos
    by_cases hsig : (analyze_symbol bb cfg symbol closesUpTo).signal = .LONG
    · cases hcp : (analyze_symbol bb cfg symbol closesUpTo).current_price <;>
        simp [bt_step, hpos, hsig, hcp]
    · simp [bt_step, hpos, hsig]
  · intro candles t ht
    unfold run_backtest at ht
    by_cases hen : getEnabled (cfg.symbolConfig symbol) = false
    · rw [if_pos hen] at ht
      exact absurd ht (List.not_mem_nil t)
    · rw [if_neg hen] at ht
      rcases bt_foldl_trades bb cfg symbol candles
          (List.range' (max 20 6) (candles.length - max 20 6)) ⟨none, []⟩ t ht with
        h | ⟨i, hi, hx⟩
      · exact absurd h (List.not_mem_nil t)
      · rcases List.mem_range'_1.1 hi with ⟨hlo, hhi⟩
        exact ⟨i, by omega, by omega, hx⟩

/-- Witness for C10: a bar whose window is too short for the indicators
leaves an open position and the trade list untouched (left disjunct of
the first conjunct, applied at a concrete state). -/
theorem backtest_position_lifecycle_witness :
    ((bt_step (fun _ => (0, 0, 0)) ⟨[]⟩ "BTCUSDT" [] 0
        ⟨some ⟨"BTCUSDT", .LONG, 0, 100, 1, 102, 99, none, 10⟩, []⟩).position
          = some ⟨"BTCUSDT", .LONG, 0, 100, 1, 102, 99, none, 10⟩ ∧
      (bt_step (fun _ => (0, 0, 0)) ⟨[]⟩ "BTCUSDT" [] 0
        ⟨some ⟨"BTCUSDT", .LONG, 0, 100, 1, 102, 99, none, 10⟩, []⟩).trades
          = (⟨some ⟨"BTCUSDT", .LONG, 0, 100, 1, 102, 99, none, 10⟩, []⟩ : BtState).trades) ∨
    ((bt_step (fun _ => (0, 0, 0)) ⟨[]⟩ "BTCUSDT" [] 0
        ⟨some ⟨"BTCUSDT", .LONG, 0, 100, 1, 102, 99, none, 10⟩, []⟩).position = none ∧
      ∃ t, (bt_step (fun _ => (0, 0, 0)) ⟨[]⟩ "BTCUSDT" [] 0
          ⟨some ⟨"BTCUSDT", .LONG, 0, 100, 1, 102, 99, none, 10⟩, []⟩).trades
            = (⟨some ⟨"BTCUSDT", .LONG, 0, 100, 1, 102, 99, none, 10⟩, []⟩ : BtState).trades ++ [t] ∧
        t.entry_time = (⟨"BTCUSDT", .LONG, 0, 100, 1, 102, 99, none, 10⟩ : BtPosition).entry_time ∧
        t.exit_time = 0) :=
  (backtest_position_lifecycle (fun _ => (0, 0, 0)) ⟨[]⟩ "BTCUSDT").1 [] 0
    ⟨some ⟨"BTCUSDT", .LONG, 0, 100, 1, 102, 99, none, 10⟩, []⟩
    ⟨"BTCUSDT", .LONG, 0, 100, 1, 102, 99, none, 10⟩ rfl

end GinBot
